import Mathlib

/-!
Verification of the IndiRobust robustness-evaluation engine.

This file shallowly embeds the Python sources of the repository
(perturbation generators, evaluation orchestrator, metrics layer,
consistency and error analysis) as executable Lean definitions and
proves or refutes the specification claims about them.

Modelling conventions:
* Python `str` is modelled as `String`, or as `List Char` where the
  source iterates character by character (`for c in text`, `list(text)`).
* Python floats (probabilities, confidences, scores) are modelled as `ℚ`.
* The global `random` module is modelled as an explicit stream of draws
  `stream : Nat → ℚ` together with a position counter; `random.random()`
  reads the draw at the current position and advances the counter.
  `random.seed(s)` replaces the whole state by a stream that is a
  function of the seed alone.  A real stream satisfies `validStream`
  (every draw lies in `[0, 1)`).
* Fallible code (`raise ValueError`, unreadable files) is modelled with
  `Except String`.
* A Python dict used as a record becomes a structure; a dict key that is
  present only on some paths becomes an `Option` field (`none` = key
  absent); a dict with dynamic keys becomes an association list.
-/

/-- State of the Python global `random` module: an infinite stream of
draws (what successive `random.random()` calls return) and the position
of the next draw. -/
structure Rng where
  stream : Nat → ℚ
  pos : Nat

/-- One call of `random.random()`: return the next draw and advance. -/
def Rng.next (g : Rng) : ℚ × Rng :=
  (g.stream g.pos, ⟨g.stream, g.pos + 1⟩)

/-- A stream is valid when every draw lies in `[0, 1)`, as guaranteed by
`random.random()`. -/
def validStream (σ : Nat → ℚ) : Prop :=
  ∀ n, 0 ≤ σ n ∧ σ n < 1

/-! ## `src/perturbations/noise.py` — `CharNoiseInjector`

All methods are static/class methods of `CharNoiseInjector`; the class
has no constructor and no seed parameter, and every method draws from
the global `random` module, here threaded explicitly as an `Rng`. -/

/-- Body of the comprehension in `random_deletion`:
`[c for c in text if random.random() > noise_level]` — one draw per
character, the character is kept when the draw is strictly greater
than `noise_level`. -/
def deletionPass (p : ℚ) : List Char → Rng → List Char × Rng
  | [], g => ([], g)
  | c :: cs, g =>
    let (r, g1) := g.next
    let (rest, g2) := deletionPass p cs g1
    (if r > p then c :: rest else rest, g2)

/-- `CharNoiseInjector.random_deletion(text, noise_level)`. -/
def random_deletion (text : List Char) (p : ℚ) (g : Rng) : List Char × Rng :=
  if text = [] then ([], g)
  else if p ≤ 0 then (text, g)
  else deletionPass p text g

/-- The loop of `random_swap`: `for i in range(n-1): if random.random() <
noise_level: swap chars[i], chars[i+1]`.  `a` is the character currently
at position `i`: after a swap it moves to position `i+1` and participates
again in the next trial (the source does not skip, despite its comment);
without a swap the next trial pairs the former `chars[i+1]` with its
successor. -/
def swapGo (p : ℚ) (a : Char) : List Char → Rng → List Char × Rng
  | [], g => ([a], g)
  | b :: rest, g =>
    let (r, g1) := g.next
    if r < p then
      let (tl, g2) := swapGo p a rest g1
      (b :: tl, g2)
    else
      let (tl, g2) := swapGo p b rest g1
      (a :: tl, g2)

/-- The full single left-to-right pass of `random_swap`. -/
def swapPass (p : ℚ) : List Char → Rng → List Char × Rng
  | [], g => ([], g)
  | c :: cs, g => swapGo p c cs g

/-- `CharNoiseInjector.random_swap(text, noise_level)`. -/
def random_swap (text : List Char) (p : ℚ) (g : Rng) : List Char × Rng :=
  if text = [] then ([], g)
  else if p ≤ 0 then (text, g)
  else swapPass p text g

/-- `CharNoiseInjector.VOWELS['en']` — `set("aeiouAEIOU")`. -/
def enVowels : List Char := ['a', 'e', 'i', 'o', 'u', 'A', 'E', 'I', 'O', 'U']

/-- `CharNoiseInjector.VOWELS['hi']` — Devanagari independent vowels,
matras, chandrabindu/anusvara/visarga, by code point as in the source. -/
def hiVowels : List Char :=
  [Char.ofNat 0x0905, Char.ofNat 0x0906, Char.ofNat 0x0907, Char.ofNat 0x0908,
   Char.ofNat 0x0909, Char.ofNat 0x090a, Char.ofNat 0x090b, Char.ofNat 0x090f,
   Char.ofNat 0x0910, Char.ofNat 0x0913, Char.ofNat 0x0914,
   Char.ofNat 0x093e, Char.ofNat 0x093f, Char.ofNat 0x0940, Char.ofNat 0x0941,
   Char.ofNat 0x0942, Char.ofNat 0x0943, Char.ofNat 0x0947, Char.ofNat 0x0948,
   Char.ofNat 0x094b, Char.ofNat 0x094c,
   Char.ofNat 0x0901, Char.ofNat 0x0902, Char.ofNat 0x0903]

/-- `CharNoiseInjector.VOWELS['mr']` — the Hindi set plus the Marathi
vocalic L code points. -/
def mrVowels : List Char :=
  hiVowels ++ [Char.ofNat 0x090c, Char.ofNat 0x0962, Char.ofNat 0x0963]

/-- `CharNoiseInjector.VOWELS['bn']` — Bengali vowels and matras by code
point as in the source. -/
def bnVowels : List Char :=
  [Char.ofNat 0x0985, Char.ofNat 0x0986, Char.ofNat 0x0987, Char.ofNat 0x0988,
   Char.ofNat 0x0989, Char.ofNat 0x098a, Char.ofNat 0x098b, Char.ofNat 0x098f,
   Char.ofNat 0x0990, Char.ofNat 0x0993, Char.ofNat 0x0994,
   Char.ofNat 0x09be, Char.ofNat 0x09bf, Char.ofNat 0x09c0, Char.ofNat 0x09c1,
   Char.ofNat 0x09c2, Char.ofNat 0x09c3, Char.ofNat 0x09c7, Char.ofNat 0x09c8,
   Char.ofNat 0x09cb, Char.ofNat 0x09cc,
   Char.ofNat 0x0981, Char.ofNat 0x0982, Char.ofNat 0x0983]

/-- The `CharNoiseInjector.VOWELS` dictionary. -/
def VOWELS : String → Option (List Char)
  | "en" => some enVowels
  | "hi" => some hiVowels
  | "mr" => some mrVowels
  | "bn" => some bnVowels
  | _ => none

/-- ASCII lowering of one character; models Python `str.lower()` on the
ASCII language codes the sources pass around. -/
def asciiCharLower (c : Char) : Char :=
  if 'A' ≤ c ∧ c ≤ 'Z' then Char.ofNat (c.toNat + 32) else c

/-- Python `s.lower()` for the ASCII strings used as language codes. -/
def pyLower (s : String) : String :=
  String.mk (s.data.map asciiCharLower)

/-- Language resolution of `CharNoiseInjector.vowel_drop`: lower-case the
tag, look it up in `VOWELS`, try the alias spellings, otherwise report
`none` (the "safe exit" that returns the text unchanged). -/
def resolveVowelLang (lang : String) : Option (List Char) :=
  let l := pyLower lang
  match VOWELS l with
  | some vs => some vs
  | none =>
    if l = "hindi" ∨ l = "hind" then VOWELS "hi"
    else if l = "marathi" then VOWELS "mr"
    else if l = "bengali" ∨ l = "bangla" then VOWELS "bn"
    else if l = "english" then VOWELS "en"
    else none

/-- The character loop of `vowel_drop`: a draw is taken only for
characters in the vowel set (Python's `and` short-circuits), and the
character is dropped when the draw is strictly below `noise_level`. -/
def vowelDropPass (vs : List Char) (p : ℚ) : List Char → Rng → List Char × Rng
  | [], g => ([], g)
  | c :: cs, g =>
    if vs.contains c then
      let (r, g1) := g.next
      let (rest, g2) := vowelDropPass vs p cs g1
      (if r < p then rest else c :: rest, g2)
    else
      let (rest, g1) := vowelDropPass vs p cs g
      (c :: rest, g1)

/-- `CharNoiseInjector.vowel_drop(text, noise_level, lang)`. -/
def vowel_drop (text : List Char) (p : ℚ) (lang : String) (g : Rng) : List Char × Rng :=
  if text = [] then ([], g)
  else if p ≤ 0 then (text, g)
  else
    match resolveVowelLang lang with
    | none => (text, g)
    | some vs => vowelDropPass vs p text g

/-- `CharNoiseInjector.inject_noise(text, noise_types, noise_level,
lang)`: apply the selected primitive operations in the order listed;
unknown names are skipped. -/
def inject_noise (types : List String) (text : List Char) (p : ℚ) (lang : String)
    (g : Rng) : List Char × Rng :=
  types.foldl (fun acc t =>
    if t = "delete" then random_deletion acc.1 p acc.2
    else if t = "swap" then random_swap acc.1 p acc.2
    else if t = "vowel_drop" then vowel_drop acc.1 p lang acc.2
    else acc) (text, g)

/-! ## Shared token machinery for `codemix.py` and `paraphrase.py` -/

/-- Python `str.split()` with no argument: split on runs of whitespace,
discarding empty tokens (leading/trailing whitespace produces none). -/
def splitWsAux : List Char → List Char → List (List Char)
  | [], acc => if acc = [] then [] else [acc.reverse]
  | c :: cs, acc =>
    if c.isWhitespace then
      if acc = [] then splitWsAux cs []
      else acc.reverse :: splitWsAux cs []
    else splitWsAux cs (c :: acc)

/-- `text.split()` on a character list. -/
def splitWs (s : List Char) : List (List Char) := splitWsAux s []

/-- Python `word.strip(chars)`: remove leading and trailing characters
belonging to `set`. -/
def stripChars (w : List Char) (set : List Char) : List Char :=
  (((w.dropWhile (fun c => set.contains c)).reverse.dropWhile
      (fun c => set.contains c))).reverse

/-- `" ".join(words)` after `text.split()`: the whitespace-normalised
form of a string (runs of whitespace collapsed to single spaces, ends
trimmed).  This is what both token-substitution generators return when
no token is replaced. -/
def wsNormalize (s : String) : String :=
  String.mk (List.intercalate [' '] (splitWs s.data))

/-- `random.seed(seed)` as called by the generator constructors: the
global `random` state is replaced by a stream that is a function of the
seed alone (`S` is the seed-to-stream map of the underlying PRNG); the
previous state `gprev` is discarded. -/
def seedReset (S : Nat → Nat → ℚ) (seed : Nat) (_gprev : Rng) : Rng :=
  ⟨S seed, 0⟩

/-! ## `src/perturbations/codemix.py` — `CodeMixer` -/

/-- `CodeMixer.MIXING_DICT['hi']`. -/
def hiMixing : List (String × String) :=
  [("गाड़ी", "car"), ("घर", "house"), ("किताब", "book"), ("फोन", "phone"),
   ("स्कूल", "school"), ("बच्चा", "kid"), ("समय", "time"), ("दिमाग", "mind"),
   ("कहानी", "story"), ("सवाल", "question"), ("जवाब", "answer"), ("दोस्त", "friend"),
   ("प्यार", "love"), ("जिंदगी", "life"), ("दुनिया", "world"), ("ऑफिस", "office"),
   ("अच्छा", "good"), ("बुरा", "bad"), ("खुश", "happy"), ("नाराज", "angry"),
   ("मुश्किल", "difficult"), ("आसान", "easy"), ("जल्दी", "fast/early"), ("जरूरी", "important"),
   ("सोचना", "think"), ("करना", "do"), ("जाना", "go"), ("आना", "come"),
   ("देखना", "see"), ("समझना", "understand"), ("बोलना", "speak"), ("खेलना", "play"),
   ("लेकिन", "but"), ("शायद", "maybe"), ("क्योंकि", "because")]

/-- `CodeMixer.MIXING_DICT['mr']`. -/
def mrMixing : List (String × String) :=
  [("गाडी", "car"), ("घर", "house"), ("पुस्तक", "book"), ("शाळा", "school"),
   ("मित्र", "friend"), ("वेळ", "time"), ("प्रश्न", "question"), ("उत्तर", "answer"),
   ("जग", "world"), ("प्रेम", "love"), ("आयुष्य", "life"),
   ("चांगले", "good"), ("वाईट", "bad"), ("सोपे", "easy"), ("कठीण", "hard"),
   ("महत्वाचे", "important"), ("आनंदी", "happy"),
   ("करणे", "do"), ("जाणे", "go"), ("येणे", "come"), ("पाहणे", "see")]

/-- `CodeMixer.MIXING_DICT` as a partial map from language code to
vocabulary. -/
def MIXING_DICT : String → Option (List (String × String))
  | "hi" => some hiMixing
  | "mr" => some mrMixing
  | _ => none

/-- The punctuation set stripped before dictionary lookup in
`CodeMixer.generate`: `.,!?"'।|` (34 is the double quote, 39 the
apostrophe). -/
def mixStrip : List Char :=
  ['.', ',', '!', '?', Char.ofNat 34, Char.ofNat 39, '।', '|']

/-- Result dict of `CodeMixer.generate`. -/
structure CodeMixResult where
  original_text : String
  codemixed_text : String
  language : String
  perturbation_type : String
deriving DecidableEq

namespace CodeMixer

/-- The token loop of `CodeMixer.generate`: a draw is taken only when the
stripped token is a dictionary key (`and` short-circuits); on a draw
below the mixing ratio the first slash-delimited alternative of the
dictionary value replaces the whole token, otherwise the original token
(punctuation included) is kept. -/
def mixWords (vocab : List (String × String)) (p : ℚ) :
    List (List Char) → Rng → List (List Char) × Rng
  | [], g => ([], g)
  | w :: ws, g =>
    let cw := String.mk (stripChars w mixStrip)
    match vocab.find? (fun kv => kv.1 = cw) with
    | some kv =>
      let (r, g1) := g.next
      if r < p then
        let (rest, g2) := mixWords vocab p ws g1
        (((kv.2.splitOn "/").headD kv.2).data :: rest, g2)
      else
        let (rest, g2) := mixWords vocab p ws g1
        (w :: rest, g2)
    | none =>
      let (rest, g1) := mixWords vocab p ws g
      (w :: rest, g1)

/-- `CodeMixer._wrap_result`. -/
def wrap (original mixed lang : String) : CodeMixResult :=
  ⟨original, mixed, lang, "code-mixing"⟩

/-- `CodeMixer.generate(text, lang, mixing_ratio)`; the construction-time
seeding is modelled separately by `seedReset`. -/
def generate (text lang : String) (p : ℚ) (g : Rng) : CodeMixResult × Rng :=
  if text = "" then (wrap text text lang, g)
  else
    let l := pyLower lang
    match MIXING_DICT l with
    | none => (wrap text text l, g)
    | some vocab =>
      let (ws, g1) := mixWords vocab p (splitWs text.data) g
      (wrap text (String.mk (List.intercalate [' '] ws)) l, g1)

end CodeMixer

/-! ## `src/perturbations/paraphrase.py` — `Paraphraser` -/

/-- `Paraphraser.SYNONYMS['en']`. -/
def enSynonyms : List (String × List String) :=
  [("good", ["nice", "excellent", "great", "fine"]),
   ("bad", ["terrible", "awful", "poor", "negative"]),
   ("happy", ["joyful", "glad", "content", "cheerful"]),
   ("sad", ["unhappy", "sorrowful", "depressed", "down"]),
   ("big", ["large", "huge", "massive", "giant"]),
   ("small", ["tiny", "little", "miniature", "minor"]),
   ("verify", ["check", "validate", "confirm", "test"]),
   ("robust", ["strong", "sturdy", "resilient", "tough"]),
   ("person", ["human", "individual", "someone", "man/woman"]),
   ("classification", ["categorization", "grouping", "sorting"]),
   ("inference", ["deduction", "conclusion", "reasoning"]),
   ("text", ["content", "script", "writing", "passage"])]

/-- `Paraphraser.SYNONYMS['hi']`. -/
def hiSynonyms : List (String × List String) :=
  [("अच्छा", ["बढ़िया", "उत्तम", "श्रेष्ठ", "लाजवाब"]),
   ("बुरा", ["खराब", "गलत", "बेकार", "घटिया"]),
   ("खुश", ["प्रसन्न", "आनंदित", "हर्षित", "मगन"]),
   ("दुखी", ["उदास", "परेशान", "व्यथित", "खिन्न"]),
   ("बड़ा", ["विशाल", "भारी", "महान", "अहम"]),
   ("छोटा", ["लघु", "साधारण", "तुच्छ", "कम"]),
   ("स्वागत", ["अभिनंदन", "सत्कार", "आदर", "इस्तकबाल"]),
   ("भाषा", ["बोली", "ज़बान", "वाणी", "माध्यम"]),
   ("परीक्षा", ["इम्तिहान", "जांच", "परख", "मूल्यांकन"])]

/-- `Paraphraser.SYNONYMS['mr']`. -/
def mrSynonyms : List (String × List String) :=
  [("चांगले", ["छान", "उत्तम", "बढ़िया"]),
   ("वाईट", ["खराब", "चुकीचे"])]

/-- `Paraphraser.SYNONYMS['bn']`. -/
def bnSynonyms : List (String × List String) :=
  [("ভালো", ["উত্তম", "চমৎকার", "সুন্দর"]),
   ("খারাপ", ["বাজে", "মন্দ", "অশুভ"])]

/-- `Paraphraser.SYNONYMS` as a partial map from language code to
synonym table. -/
def SYNONYMS : String → Option (List (String × List String))
  | "en" => some enSynonyms
  | "hi" => some hiSynonyms
  | "mr" => some mrSynonyms
  | "bn" => some bnSynonyms
  | _ => none

/-- The punctuation set stripped before synonym lookup: `.,!?"'`. -/
def paraStrip : List Char :=
  ['.', ',', '!', '?', Char.ofNat 34, Char.ofNat 39]

/-- `random.choice(xs)` as one draw of the modelled PRNG selecting an
index (an abstraction of the source's uniform choice; which synonym is
selected never matters to the claims, only that one draw is consumed
deterministically). -/
def Rng.choice (xs : List String) (g : Rng) : String × Rng :=
  let (r, g1) := g.next
  (xs.getD (min (Int.toNat ⌊r * xs.length⌋) (xs.length - 1)) "", g1)

/-- Result dict of `Paraphraser.generate`. -/
structure ParaphraseResult where
  original_text : String
  paraphrased_text : String
  language : String
  perturbation_type : String
deriving DecidableEq

namespace Paraphraser

/-- The language normalisation in `Paraphraser.generate`: lower-case, and
when not a key of `SYNONYMS`, map by leading two letters; a tag still
unrecognised after that is kept as lower-cased. -/
def normLang (lang : String) : String :=
  let l := pyLower lang
  if (SYNONYMS l).isSome then l
  else if l.data.take 2 = "hi".data then "hi"
  else if l.data.take 2 = "en".data then "en"
  else if l.data.take 2 = "mr".data then "mr"
  else if l.data.take 2 = "bn".data then "bn"
  else l

/-- The token loop of `Paraphraser._synonym_substitution`: a first draw
is taken only when the stripped token is a key of the synonym table;
when it is below the rate a second draw (`random.choice`) selects a
synonym, which replaces the whole token. -/
def subWords (syns : List (String × List String)) (p : ℚ) :
    List (List Char) → Rng → List (List Char) × Rng
  | [], g => ([], g)
  | w :: ws, g =>
    let cw := String.mk (stripChars w paraStrip)
    match syns.find? (fun kv => kv.1 = cw) with
    | some kv =>
      let (r, g1) := g.next
      if r < p then
        let (repl, g2) := Rng.choice kv.2 g1
        let (rest, g3) := subWords syns p ws g2
        (repl.data :: rest, g3)
      else
        let (rest, g2) := subWords syns p ws g1
        (w :: rest, g2)
    | none =>
      let (rest, g1) := subWords syns p ws g
      (w :: rest, g1)

/-- `Paraphraser._synonym_substitution(text, lang, rate)`. -/
def synonym_substitution (text : String) (lang : String) (p : ℚ) (g : Rng) :
    String × Rng :=
  match SYNONYMS lang with
  | none => (text, g)
  | some syns =>
    let (ws, g1) := subWords syns p (splitWs text.data) g
    (String.mk (List.intercalate [' '] ws), g1)

/-- `Paraphraser._wrap_result`. -/
def wrap (original paraphrased lang strat : String) : ParaphraseResult :=
  ⟨original, paraphrased, lang, strat⟩

/-- `Paraphraser.generate(text, lang, strategy, substitution_rate)`; the
construction-time seeding is modelled separately by `seedReset`.  An
unrecognised strategy falls through to the identity. -/
def generate (text lang strat : String) (p : ℚ) (g : Rng) :
    ParaphraseResult × Rng :=
  if text = "" then (wrap text text lang strat, g)
  else
    let l := normLang lang
    if strat = "synonym" then
      let (t, g1) := synonym_substitution text l p g
      (wrap text t l strat, g1)
    else (wrap text text l strat, g)

end Paraphraser

/-! ## `src/evaluation/metrics.py` -/

/-- The dict returned by `calculate_classification_metrics`.  The
`confusion_matrix` key is present (`some`) only on the non-empty path;
the early return for empty input builds a dict without it (`none`). -/
structure ClsMetrics where
  accuracy : ℚ
  f1_macro : ℚ
  confusion_matrix : Option (List (List Nat))
deriving DecidableEq

/-- Structural insertion used by `sortLe`. -/
def insertLe {α : Type} (le : α → α → Bool) (x : α) : List α → List α
  | [] => [x]
  | y :: ys => if le x y then x :: y :: ys else y :: insertLe le x ys

/-- Structural insertion sort; models the sorted order of
`numpy.unique` over the class labels inside scikit-learn. -/
def sortLe {α : Type} (le : α → α → Bool) : List α → List α
  | [] => []
  | x :: xs => insertLe le x (sortLe le xs)

/-- `calculate_classification_metrics(references, predictions)`:
raises (models as `Except.error`) on a length mismatch; returns the
two-key zeroed dict for empty input; otherwise accuracy, macro F1 with
`zero_division=0`, and the class-by-class confusion matrix over the
sorted set of labels occurring in either list. -/
def calculate_classification_metrics {α : Type} [DecidableEq α]
    (le : α → α → Bool) (references predictions : List α) :
    Except String ClsMetrics :=
  if references.length ≠ predictions.length then
    .error "Length mismatch"
  else if references.length = 0 then
    .ok ⟨0, 0, none⟩
  else
    let pairs := references.zip predictions
    let n : ℚ := references.length
    let acc : ℚ := ((pairs.filter (fun rp => decide (rp.1 = rp.2))).length : ℚ) / n
    let classes := sortLe le ((references ++ predictions).dedup)
    let f1s := classes.map (fun c =>
      let tp := (pairs.filter (fun rp => decide (rp.1 = c) && decide (rp.2 = c))).length
      let fp := (pairs.filter (fun rp => decide (rp.1 ≠ c) && decide (rp.2 = c))).length
      let fnn := (pairs.filter (fun rp => decide (rp.1 = c) && decide (rp.2 ≠ c))).length
      let prec : ℚ := if tp + fp = 0 then 0 else (tp : ℚ) / ((tp : ℚ) + fp)
      let recl : ℚ := if tp + fnn = 0 then 0 else (tp : ℚ) / ((tp : ℚ) + fnn)
      if prec + recl = 0 then 0 else 2 * prec * recl / (prec + recl))
    let cm := classes.map (fun t =>
      classes.map (fun prd =>
        (pairs.filter (fun rp => decide (rp.1 = t) && decide (rp.2 = prd))).length))
    .ok ⟨acc, f1s.sum / (classes.length : ℚ), some cm⟩

/-- `calculate_consistency(clean_preds, perturbed_preds)`: 0.0 on length
mismatch or empty input, else the fraction of positions with equal
labels. -/
def calculate_consistency {α : Type} [DecidableEq α]
    (clean_preds perturbed_preds : List α) : ℚ :=
  if clean_preds.length ≠ perturbed_preds.length then 0
  else if clean_preds = [] then 0
  else
    (((clean_preds.zip perturbed_preds).filter
        (fun cp => decide (cp.1 = cp.2))).length : ℚ) / clean_preds.length

/-! ## `src/evaluation/evaluator.py` — `Evaluator.evaluate_task` -/

/-- One element of the dataset list handed to `evaluate_task`: a dict
whose fields are read with `.get`, hence all optional. -/
structure Ex where
  id : String
  language : Option String
  text : Option String
  premise : Option String
  hypothesis : Option String
  label : Option String
deriving DecidableEq

/-- The two shapes of model-boundary input the orchestrator builds:
a premise/hypothesis dict when both keys are present, else the flat
text field (empty string when missing). -/
inductive ModelInput where
  | flat (text : String)
  | pair (premise hypothesis : String)
deriving DecidableEq

/-- One raw output of `ModelRunner.batch_predict`: either a structured
dict (whose `label`/`score` keys may be missing; `repr` carries its
Python `str()` form, used as the label fallback) or a bare label. -/
inductive RawPred where
  | bare (s : String)
  | struct (repr : String) (label : Option String) (score : Option ℚ)
deriving DecidableEq

/-- The normalisation loop of `evaluate_task`: a dict yields
`p.get('label', str(p))` and `p.get('score', 0.0)`; a bare output yields
`str(p)` with confidence defaulting to 1.0. -/
def normalizeRawPred : RawPred → String × ℚ
  | .bare s => (s, 1)
  | .struct rep l sc => (l.getD rep, sc.getD 0)

/-- The `defaultdict(list)` grouping of `evaluate_task`: languages in
first-occurrence order, examples keeping their relative order within
each group; a missing language field groups under `"unknown"`. -/
def groupByLang (ds : List Ex) : List (String × List Ex) :=
  ds.foldl (fun acc ex =>
    let l := ex.language.getD "unknown"
    if acc.any (fun kv => kv.1 = l) then
      acc.map (fun kv => if kv.1 = l then (kv.1, kv.2 ++ [ex]) else kv)
    else acc ++ [(l, [ex])]) []

/-- Input selection of `evaluate_task`: the premise/hypothesis pair when
both keys are present, else the flat text (empty string if absent). -/
def buildInput (ex : Ex) : ModelInput :=
  match ex.premise, ex.hypothesis with
  | some pr, some hy => .pair pr hy
  | _, _ => .flat (ex.text.getD "")

/-- Comparison used to sort `Option String` class labels. -/
def optStrLe (a b : Option String) : Bool :=
  match a, b with
  | none, _ => true
  | some _, none => false
  | some x, some y => decide (x ≤ y)

/-- `Evaluator.evaluate_task(dataset, task_name, perturbation_name)`.
Despite its annotated return type `tuple[metrics, predictions]` and its
docstring, the source's final statement is `return overall_results`
alone, so the embedding returns only the per-language metrics map (the
per-language prediction lists are computed and then lost; persisting
them to CSV is out of scope).  The batched-inference collaborator is the
function argument `runner`, whose contract is positional 1:1 output. -/
def evaluate_task (runner : List ModelInput → List RawPred) (dataset : List Ex) :
    List (String × Except String ClsMetrics) :=
  (groupByLang dataset).map (fun kv =>
    let inputs := kv.2.map buildInput
    let labels := kv.2.map (fun ex => ex.label)
    let raw := runner inputs
    let pred_labels := raw.map (fun p => (normalizeRawPred p).1)
    (kv.1, calculate_classification_metrics optStrLe labels (pred_labels.map some)))

/-! ## `src/analysis/consistency.py` — `ConsistencyAnalyzer.analyze_pair` -/

/-- One row of a persisted prediction CSV, the columns the analyzer
reads (`id`, `prediction`, `label`; ids already cast to strings). -/
structure PredRow where
  id : String
  prediction : String
  label : String
deriving DecidableEq

/-- `pd.merge(clean_df, pert_df, on='id', how='inner')`: every clean row
paired with every perturbed row of equal id, in left-frame order. -/
def innerJoin (clean pert : List PredRow) : List (PredRow × PredRow) :=
  clean.flatMap (fun c => (pert.filter (fun p => decide (p.id = c.id))).map (fun p => (c, p)))

/-- `ConsistencyAnalyzer.analyze_pair(clean_preds_path, pert_preds_path)`.
The two arguments model `pd.read_csv` on each path: `Except.error` is a
missing or unreadable file.  The returned association list models the
returned dict; note the three different shapes the source can return:
the five-key stats dict, the three-key all-zero dict for an empty join
(whose keys are `consistency` and `flip_rate`, with no
`consistency_score`), and the empty dict `{}` from the blanket
`except` handler that catches any collaborator failure. -/
def analyze_pair (cleanFile pertFile : Except String (List PredRow)) :
    List (String × ℚ) :=
  match cleanFile, pertFile with
  | .ok clean, .ok pert =>
    let merged := innerJoin clean pert
    if merged.length = 0 then
      [("consistency", 0), ("flip_rate", 0), ("total_samples", 0)]
    else
      let total : ℚ := merged.length
      let consistent : ℚ :=
        ((merged.filter (fun cp => decide (cp.1.prediction = cp.2.prediction))).length : ℚ)
      let consistency := consistent / total
      [("total_samples", total), ("consistent_count", consistent),
       ("flipped_count", total - consistent),
       ("consistency_score", consistency), ("flip_rate", 1 - consistency)]
  | _, _ => []

/-- Reading one numeric entry out of a returned stats dict (0 when the
key is absent, as `dict.get(k, 0)` would give). -/
def lookupQ (d : List (String × ℚ)) (k : String) : ℚ :=
  ((d.find? (fun kv => kv.1 = k)).map (fun kv => kv.2)).getD 0

/-! ## `src/analysis/error_analysis.py` — `run_deep_error_analysis` -/

/-- One row of the id-joined clean/perturbed prediction table built by
`run_deep_error_analysis` (suffixes `_clean` / `_pert` as produced by
`pd.merge`). -/
structure MergedRow where
  id : String
  prediction_clean : String
  prediction_pert : String
  label_clean : String
  label_pert : String
  score_clean : ℚ
  score_pert : ℚ
deriving DecidableEq

/-- The flip filter: joined rows whose clean and perturbed predictions
differ. -/
def flipRows (merged : List MergedRow) : List MergedRow :=
  merged.filter (fun r => decide (r.prediction_clean ≠ r.prediction_pert))

/-- The high-confidence-failure filter of `run_deep_error_analysis`:
joined rows where the perturbed prediction differs from the ground-truth
label and the perturbed score strictly exceeds the threshold
(default 0.9). -/
def highConfFailures (merged : List MergedRow) (threshold : ℚ) : List MergedRow :=
  merged.filter (fun r =>
    decide (r.prediction_pert ≠ r.label_pert) && decide (r.score_pert > threshold))

/-- The default of the `high_conf_threshold` parameter. -/
def high_conf_threshold_default : ℚ := 9 / 10

/-- Displacement of the first occurrence of a character between an
original string and a perturbed one; the claim about `random_swap` says
no character is ever carried more than one position in a single pass. -/
def displacement (orig res : List Char) (c : Char) : Int :=
  (res.indexOf c : Int) - (orig.indexOf c : Int)

/-! ## Concrete fixtures used by witnesses and counterexamples -/

/-- The all-zero draw stream (a valid PRNG trace: every draw is 0). -/
def zStream : Nat → ℚ := fun _ => 0

/-- A global-random state positioned at the start of `zStream`. -/
def zRng : Rng := ⟨zStream, 0⟩

/-- A valid draw stream whose first two draws are 0 and all later draws
are 9/10; it separates a first from a second invocation of an unseeded
generator. -/
def c4Stream : Nat → ℚ := fun n => if n < 2 then 0 else 9 / 10

/-- A model runner that labels every input `"A"` with a bare
(non-structured) output, honouring the positional 1:1 contract. -/
def demoRunner : List ModelInput → List RawPred :=
  fun inputs => inputs.map (fun _ => .bare "A")

/-- A one-example, one-language dataset. -/
def demoDs : List Ex := [⟨"1", some "hi", some "x", none, none, some "A"⟩]

/-- String comparison used to sort string class labels. -/
def strLe : String → String → Bool := fun a b => decide (a ≤ b)

/-- A prediction row used by concrete witnesses. -/
def demoRow : PredRow := ⟨"1", "A", "A"⟩

theorem zStream_valid : validStream zStream := by
  intro n
  simp only [zStream]
  norm_num

theorem c4Stream_valid : validStream c4Stream := by
  intro n
  by_cases h : n < 2
  · norm_num [c4Stream, h]
  · norm_num [c4Stream, h]

/-! ## Helper lemmas: intensity 0 -/

theorem random_deletion_zero (text : List Char) (g : Rng) :
    random_deletion text 0 g = (text, g) := by
  unfold random_deletion
  rcases text with _ | ⟨c, cs⟩ <;> simp

theorem random_swap_zero (text : List Char) (g : Rng) :
    random_swap text 0 g = (text, g) := by
  unfold random_swap
  rcases text with _ | ⟨c, cs⟩ <;> simp

theorem vowel_drop_zero (text : List Char) (lang : String) (g : Rng) :
    vowel_drop text 0 lang g = (text, g) := by
  unfold vowel_drop
  rcases text with _ | ⟨c, cs⟩ <;> simp

theorem inject_noise_zero (types : List String) (text : List Char) (lang : String)
    (g : Rng) : inject_noise types text 0 lang g = (text, g) := by
  unfold inject_noise
  induction types generalizing text g with
  | nil => rfl
  | cons t ts ih =>
    simp only [List.foldl_cons]
    have hstep :
        (if t = "delete" then random_deletion text 0 g
         else if t = "swap" then random_swap text 0 g
         else if t = "vowel_drop" then vowel_drop text 0 lang g
         else (text, g)) = (text, g) := by
      split
      · exact random_deletion_zero text g
      · split
        · exact random_swap_zero text g
        · split
          · exact vowel_drop_zero text lang g
          · rfl
    rw [hstep]
    exact ih text g

theorem mixWords_zero_fst (vocab : List (String × String)) (ws : List (List Char))
    (g : Rng) (hv : validStream g.stream) :
    (CodeMixer.mixWords vocab 0 ws g).1 = ws := by
  induction ws generalizing g with
  | nil => rfl
  | cons w rest ih =>
    have hge : ¬ g.stream g.pos < 0 := not_lt.mpr (hv g.pos).1
    cases hf : vocab.find? (fun kv => decide (kv.1 = String.mk (stripChars w mixStrip))) with
    | none =>
      simp [CodeMixer.mixWords, hf, ih g hv]
    | some kv =>
      simp [CodeMixer.mixWords, hf, Rng.next, hge, ih ⟨g.stream, g.pos + 1⟩ hv]

theorem subWords_zero_fst (syns : List (String × List String)) (ws : List (List Char))
    (g : Rng) (hv : validStream g.stream) :
    (Paraphraser.subWords syns 0 ws g).1 = ws := by
  induction ws generalizing g with
  | nil => rfl
  | cons w rest ih =>
    have hge : ¬ g.stream g.pos < 0 := not_lt.mpr (hv g.pos).1
    cases hf : syns.find? (fun kv => decide (kv.1 = String.mk (stripChars w paraStrip))) with
    | none =>
      simp [Paraphraser.subWords, hf, ih g hv]
    | some kv =>
      simp [Paraphraser.subWords, hf, Rng.next, hge, ih ⟨g.stream, g.pos + 1⟩ hv]

theorem codeMixer_zero (text lang : String) (g : Rng) (hv : validStream g.stream) :
    (CodeMixer.generate text lang 0 g).1.codemixed_text =
      (if text = "" then text
       else if (MIXING_DICT (pyLower lang)).isNone then text
       else wsNormalize text) := by
  unfold CodeMixer.generate
  by_cases ht : text = ""
  · simp [ht, CodeMixer.wrap]
  · simp only [ht, if_false]
    cases hd : MIXING_DICT (pyLower lang) with
    | none => simp [hd, CodeMixer.wrap]
    | some vocab =>
      simp [hd, CodeMixer.wrap, wsNormalize, mixWords_zero_fst vocab _ g hv]

theorem paraphraser_zero (text lang : String) (g : Rng) (hv : validStream g.stream) :
    (Paraphraser.generate text lang "synonym" 0 g).1.paraphrased_text =
      (if text = "" then text
       else if (SYNONYMS (Paraphraser.normLang lang)).isNone then text
       else wsNormalize text) := by
  unfold Paraphraser.generate
  by_cases ht : text = ""
  · simp [ht, Paraphraser.wrap]
  · simp only [ht, if_false, if_pos rfl]
    unfold Paraphraser.synonym_substitution
    cases hd : SYNONYMS (Paraphraser.normLang lang) with
    | none => simp [hd, Paraphraser.wrap]
    | some syns =>
      simp [hd, Paraphraser.wrap, wsNormalize, subWords_zero_fst syns _ g hv]

/-! ## Claim theorems -/

/-- C1 (amended): at intensity 0 the three character-noise operations and
their composition return the text (and the PRNG state) unchanged, while
`CodeMixer.generate` and `Paraphraser.generate` at ratio/rate 0 return
the whitespace-normalised text — `" ".join(text.split())` — for a
non-empty text in a supported language, and the text unchanged
otherwise.  The normalised form equals the original exactly when the
original's tokens are already separated by single spaces with no
leading or trailing whitespace. -/
theorem c1_p0_behavior (text : List Char) (s lang : String) (types : List String)
    (g : Rng) (hv : validStream g.stream) :
    random_deletion text 0 g = (text, g) ∧
    random_swap text 0 g = (text, g) ∧
    vowel_drop text 0 lang g = (text, g) ∧
    inject_noise types text 0 lang g = (text, g) ∧
    (CodeMixer.generate s lang 0 g).1.codemixed_text =
      (if s = "" then s
       else if (MIXING_DICT (pyLower lang)).isNone then s
       else wsNormalize s) ∧
    (Paraphraser.generate s lang "synonym" 0 g).1.paraphrased_text =
      (if s = "" then s
       else if (SYNONYMS (Paraphraser.normLang lang)).isNone then s
       else wsNormalize s) :=
  ⟨random_deletion_zero text g, random_swap_zero text g, vowel_drop_zero text lang g,
   inject_noise_zero types text lang g, codeMixer_zero s lang g hv,
   paraphraser_zero s lang g hv⟩

/-- C1 witness: the amended claim instantiated on concrete inputs with
the all-zero valid stream. -/
theorem c1_p0_behavior_witness :
    validStream zRng.stream ∧
    random_deletion ['a'] 0 zRng = (['a'], zRng) ∧
    (CodeMixer.generate "ab" "hi" 0 zRng).1.codemixed_text =
      (if ("ab" : String) = "" then "ab"
       else if (MIXING_DICT (pyLower "hi")).isNone then "ab"
       else wsNormalize "ab") := by
  have hv : validStream zRng.stream := zStream_valid
  have h := c1_p0_behavior ['a'] "ab" "hi" ["delete"] zRng hv
  exact ⟨hv, h.1, h.2.2.2.2.1⟩

/-- C1 counterexample: the claim as stated is false — with mixing ratio
0 the code-mixer splits on whitespace and re-joins with single spaces,
so the doubled space of `"a  b"` is collapsed and the perturbed text
differs from the original. -/
theorem c1_counterexample :
    (CodeMixer.generate "a  b" "hi" 0 zRng).1.original_text = "a  b" ∧
    (CodeMixer.generate "a  b" "hi" 0 zRng).1.codemixed_text = "a b" ∧
    ("a b" : String) ≠ "a  b" := by
  refine ⟨by decide, by decide, by decide⟩

/-- C2 (amended): whenever the inner join of the clean and perturbed
prediction sets is non-empty, the stats dict returned by `analyze_pair`
satisfies `flip_rate + consistency_score = 1`.  (The empty join is the
exception the original claim wrongly included.) -/
theorem c2_flip_consistency_sum (clean pert : List PredRow)
    (h : innerJoin clean pert ≠ []) :
    lookupQ (analyze_pair (.ok clean) (.ok pert)) "flip_rate" +
      lookupQ (analyze_pair (.ok clean) (.ok pert)) "consistency_score" = 1 := by
  have hlen : ¬ (innerJoin clean pert).length = 0 := by
    simpa [List.length_eq_zero] using h
  simp only [analyze_pair, hlen, if_false]
  simp [lookupQ, List.find?]

/-- C2 witness: a one-row pair of prediction files with a non-empty
join. -/
theorem c2_flip_consistency_sum_witness :
    innerJoin [demoRow] [demoRow] ≠ [] ∧
    lookupQ (analyze_pair (.ok [demoRow]) (.ok [demoRow])) "flip_rate" +
      lookupQ (analyze_pair (.ok [demoRow]) (.ok [demoRow])) "consistency_score" = 1 := by
  have h : innerJoin [demoRow] [demoRow] ≠ [] := by decide
  exact ⟨h, c2_flip_consistency_sum [demoRow] [demoRow] h⟩

/-- C2 counterexample: on an empty join `analyze_pair` returns the
all-zero three-key dict (whose keys are `consistency` and `flip_rate`,
with no `consistency_score` at all), so the claimed identity
`flip_rate + consistency_score = 1` fails there: the sum is 0. -/
theorem c2_counterexample :
    analyze_pair (.ok ([] : List PredRow)) (.ok []) =
      [("consistency", 0), ("flip_rate", 0), ("total_samples", 0)] ∧
    lookupQ (analyze_pair (.ok ([] : List PredRow)) (.ok [])) "flip_rate" +
      lookupQ (analyze_pair (.ok ([] : List PredRow)) (.ok [])) "consistency_score" ≠ 1 := by
  constructor
  · rfl
  · simp [analyze_pair, innerJoin, lookupQ, List.find?]

/-- C3: `Evaluator.evaluate_task` returns only the per-language metrics
map — here evaluated on a concrete one-language dataset, where the
result is the metrics map alone, with no per-language prediction lists
(the source's `return overall_results` drops them despite the annotated
`tuple[...]` return type, so its callers' two-value unpacking fails). -/
theorem c3_evaluate_task_returns_metrics_only :
    evaluate_task demoRunner demoDs =
      [("hi", Except.ok ⟨1, 1, some [[1]]⟩)] := by
  have hded : ([some "A", some "A"] : List (Option String)).dedup = [some "A"] := by
    decide
  norm_num [evaluate_task, demoDs, demoRunner, groupByLang, buildInput,
    normalizeRawPred, calculate_classification_metrics, optStrLe, sortLe,
    insertLe, hded]

/-- C4 (amended): the two generators that do take a construction seed —
`CodeMixer` and `Paraphraser`, whose constructors call
`random.seed(seed)` — are reproducible: two runs that each construct
with the same seed and then generate on the same input produce
identical results, whatever the global PRNG state each run started
from.  (`CharNoiseInjector` is the exception the original claim wrongly
included: it has no constructor and no seed parameter.) -/
theorem c4_seeded_two_run_determinism (S : Nat → Nat → ℚ) (seed : Nat)
    (text lang strat : String) (p : ℚ) (g1 g2 : Rng) :
    (CodeMixer.generate text lang p (seedReset S seed g1)).1 =
      (CodeMixer.generate text lang p (seedReset S seed g2)).1 ∧
    (Paraphraser.generate text lang strat p (seedReset S seed g1)).1 =
      (Paraphraser.generate text lang strat p (seedReset S seed g2)).1 :=
  ⟨rfl, rfl⟩

/-- C4 counterexample: `CharNoiseInjector` accepts no seed at
construction (it has no constructor), so its invocations consume the
ambient global stream where they stand: on a valid stream two
invocations on the same input return different outputs — the
determinism claimed for all three generators fails for this one. -/
theorem c4_counterexample :
    validStream c4Stream ∧
    (random_deletion ['a', 'b'] (1 / 2) ⟨c4Stream, 0⟩).1 ≠
      (random_deletion ['a', 'b'] (1 / 2)
        ((random_deletion ['a', 'b'] (1 / 2) ⟨c4Stream, 0⟩).2)).1 := by
  refine ⟨c4Stream_valid, ?_⟩
  have h1 : random_deletion ['a', 'b'] (1 / 2) ⟨c4Stream, 0⟩ = ([], ⟨c4Stream, 2⟩) := by
    unfold random_deletion
    rw [if_neg (by simp), if_neg (by norm_num)]
    norm_num [deletionPass, Rng.next, c4Stream]
  have h2 : random_deletion ['a', 'b'] (1 / 2) ⟨c4Stream, 2⟩ = (['a', 'b'], ⟨c4Stream, 4⟩) := by
    unfold random_deletion
    rw [if_neg (by simp), if_neg (by norm_num)]
    norm_num [deletionPass, Rng.next, c4Stream]
  rw [h1]
  rw [show (([], (⟨c4Stream, 2⟩ : Rng)) : List Char × Rng).2 = ⟨c4Stream, 2⟩ from rfl, h2]
  simp

/-- Draw count of the swap pass: one trial per adjacent pair. -/
theorem swapGo_pos_len (p : ℚ) (cs : List Char) (a : Char) (g : Rng) :
    (swapGo p a cs g).2.pos = g.pos + cs.length := by
  induction cs generalizing a g with
  | nil => rfl
  | cons b rest ih =>
    simp only [swapGo, Rng.next]
    split
    · simp [ih a ⟨g.stream, g.pos + 1⟩]
      omega
    · simp [ih b ⟨g.stream, g.pos + 1⟩]
      omega

/-- The swap pass permutes the characters it is given. -/
theorem swapGo_perm (p : ℚ) (cs : List Char) (a : Char) (g : Rng) :
    ((swapGo p a cs g).1).Perm (a :: cs) := by
  induction cs generalizing a g with
  | nil => simp [swapGo]
  | cons b rest ih =>
    simp only [swapGo, Rng.next]
    split
    · exact ((ih a ⟨g.stream, g.pos + 1⟩).cons b).trans (List.Perm.swap a b rest)
    · exact (ih b ⟨g.stream, g.pos + 1⟩).cons a

/-- C5 (amended): `random_swap` makes a single left-to-right pass with
exactly one independent Bernoulli trial per adjacent position pair
(`length − 1` draws are consumed), producing a permutation of the input;
but a trial applies to the current, possibly already-swapped contents,
so a character can be carried more than one position in one pass —
the claim's "no re-swap" part is dropped. -/
theorem c5_single_pass_per_pair (text : List Char) (p : ℚ) (g : Rng)
    (hp : 0 < p) :
    (random_swap text p g).2.pos = g.pos + (text.length - 1) ∧
    ((random_swap text p g).1).Perm text := by
  unfold random_swap
  rcases text with _ | ⟨c, cs⟩
  · simp
  · rw [if_neg (by simp), if_neg (not_le.mpr hp)]
    constructor
    · simpa [swapPass] using swapGo_pos_len p cs c g
    · simpa [swapPass] using swapGo_perm p cs c g

/-- C5 witness: the amended claim instantiated at probability 1/2 on a
two-character text with the all-zero stream. -/
theorem c5_single_pass_per_pair_witness :
    (0 : ℚ) < 1 / 2 ∧
    (random_swap ['a', 'b'] (1 / 2) zRng).2.pos = zRng.pos + 1 ∧
    ((random_swap ['a', 'b'] (1 / 2) zRng).1).Perm ['a', 'b'] := by
  have hp : (0 : ℚ) < 1 / 2 := by norm_num
  have h := c5_single_pass_per_pair ['a', 'b'] (1 / 2) zRng hp
  exact ⟨hp, h.1, h.2⟩

/-- C5 counterexample: with every draw below the probability, the pass
over `"abc"` swaps at position 0 and then swaps the moved character
again at position 1, yielding `"bca"`: the character `a` is carried two
positions by a single pass, refuting the claim's "no character can be
carried more than one position". -/
theorem c5_counterexample :
    (random_swap ['a', 'b', 'c'] (1 / 2) zRng).1 = ['b', 'c', 'a'] ∧
    displacement ['a', 'b', 'c'] ['b', 'c', 'a'] 'a' = 2 := by
  constructor
  · unfold random_swap
    rw [if_neg (by simp), if_neg (by norm_num)]
    norm_num [swapPass, swapGo, Rng.next, zRng, zStream]
  · decide

/-- C6 (amended): `calculate_classification_metrics` fails (raises, here
`Except.error`) exactly when the reference and prediction lists have
different lengths; for equal-length empty inputs it succeeds and
returns the zeroed two-key record — `accuracy` and `f1_macro` only,
with no `confusion_matrix` key (modelled as the `none` field). -/
theorem c6_length_mismatch_and_empty (references predictions : List String) :
    ((∃ m, calculate_classification_metrics strLe references predictions =
        Except.ok m) ↔ references.length = predictions.length) ∧
    calculate_classification_metrics strLe ([] : List String) ([] : List String) =
      Except.ok ⟨0, 0, none⟩ := by
  refine ⟨?_, rfl⟩
  by_cases hlen : references.length = predictions.length
  · refine ⟨fun _ => hlen, fun _ => ?_⟩
    unfold calculate_classification_metrics
    rw [if_neg (by simpa using hlen)]
    split
    · exact ⟨_, rfl⟩
    · exact ⟨_, rfl⟩
  · constructor
    · rintro ⟨m, hm⟩
      unfold calculate_classification_metrics at hm
      rw [if_pos (by simpa using hlen)] at hm
      exact absurd hm (by simp)
    · intro h
      exact absurd h hlen

/-- C6 counterexample: on equal-length empty inputs the returned record
carries no `confusion_matrix` key (the field is `none`), so the claim's
"returns the zeroed metrics record with accuracy, f1_macro and
confusion_matrix" is false for the empty case. -/
theorem c6_counterexample :
    calculate_classification_metrics strLe ([] : List String) ([] : List String) =
      Except.ok ⟨0, 0, none⟩ ∧
    (ClsMetrics.mk 0 0 none).confusion_matrix = none :=
  ⟨rfl, rfl⟩

/-- Membership in the high-confidence-failure filter, characterised. -/
theorem mem_highConfFailures (merged : List MergedRow) (threshold : ℚ)
    (r : MergedRow) :
    r ∈ highConfFailures merged threshold ↔
      r ∈ merged ∧ r.prediction_pert ≠ r.label_pert ∧ threshold < r.score_pert := by
  simp [highConfFailures, List.mem_filter, and_assoc]

/-- C7: a joined row is flagged as a high-confidence failure iff the
perturbed prediction differs from the ground-truth label and the
perturbed confidence strictly exceeds the threshold; in particular a
row whose perturbed confidence equals the default threshold 0.9 exactly
is excluded, as the concrete second conjunct shows. -/
theorem c7_high_conf_filter (merged : List MergedRow) (threshold : ℚ)
    (r : MergedRow) :
    (r ∈ highConfFailures merged threshold ↔
      r ∈ merged ∧ r.prediction_pert ≠ r.label_pert ∧ threshold < r.score_pert) ∧
    highConfFailures [⟨"1", "A", "B", "A", "A", 1, 9 / 10⟩]
      high_conf_threshold_default = [] := by
  constructor
  · exact mem_highConfFailures merged threshold r
  · rw [List.eq_nil_iff_forall_not_mem]
    intro x hx
    rw [mem_highConfFailures] at hx
    rcases hx with ⟨hmem, _, hlt⟩
    rcases List.mem_singleton.mp hmem with rfl
    norm_num [high_conf_threshold_default] at hlt

/-- C8 (amended): a collaborator failure while reading either prediction
file does not propagate out of `analyze_pair`: the blanket exception
handler absorbs it and the empty dict `{}` (here `[]`) is returned as a
non-error value. -/
theorem c8_failures_absorbed (e : String) (f : Except String (List PredRow)) :
    analyze_pair (.error e) f = [] ∧ analyze_pair f (.error e) = [] := by
  constructor
  · cases f <;> rfl
  · cases f <;> rfl

/-- C8 counterexample: a missing clean-predictions file — a collaborator
failure — yields the ordinary empty-dict return value instead of a
propagated error, refuting the claimed propagation. -/
theorem c8_counterexample :
    analyze_pair (.error "missing prediction file") (.ok [demoRow]) = [] := rfl

/-- With probability 1 and a valid stream, every character of a text
made of vowels is dropped. -/
theorem vowelDropPass_drop_all (vs : List Char) (t : List Char) (g : Rng)
    (hv : validStream g.stream) (h : ∀ c ∈ t, c ∈ vs) :
    (vowelDropPass vs 1 t g).1 = [] := by
  induction t generalizing g with
  | nil => rfl
  | cons c cs ih =>
    have hc : c ∈ vs := h c (List.mem_cons_self c cs)
    have hlt : g.stream g.pos < 1 := (hv g.pos).2
    simp [vowelDropPass, hc, Rng.next, hlt,
      ih ⟨g.stream, g.pos + 1⟩ hv (fun x hx => h x (List.mem_cons_of_mem c hx))]

/-- A text without any vowel of the set passes through unchanged (and
consumes no randomness at all). -/
theorem vowelDropPass_keep_all (vs : List Char) (p : ℚ) (t : List Char) (g : Rng)
    (h : ∀ c ∈ t, c ∉ vs) :
    (vowelDropPass vs p t g).1 = t := by
  induction t generalizing g with
  | nil => rfl
  | cons c cs ih =>
    have hc : c ∉ vs := h c (List.mem_cons_self c cs)
    simp [vowelDropPass, hc, ih g (fun x hx => h x (List.mem_cons_of_mem c hx))]

/-- C9: vowel-drop at probability 1 empties a text consisting solely of
vowels of the resolved language's set, keeps a text containing none of
them unchanged, and for an unrecognised language returns the text
unchanged at every probability. -/
theorem c9_vowel_drop (lang1 lang3 : String) (vs t1 t2 t3 : List Char)
    (p : ℚ) (g1 g2 g3 : Rng)
    (hv : validStream g1.stream)
    (hl : resolveVowelLang lang1 = some vs)
    (h1 : ∀ c ∈ t1, c ∈ vs)
    (h2 : ∀ c ∈ t2, c ∉ vs)
    (h3 : resolveVowelLang lang3 = none) :
    (vowel_drop t1 1 lang1 g1).1 = [] ∧
    (vowel_drop t2 1 lang1 g2).1 = t2 ∧
    (vowel_drop t3 p lang3 g3).1 = t3 := by
  refine ⟨?_, ?_, ?_⟩
  · unfold vowel_drop
    rcases t1 with _ | ⟨c, cs⟩
    · simp
    · rw [if_neg (by simp), if_neg (by norm_num), hl]
      exact vowelDropPass_drop_all vs _ g1 hv h1
  · unfold vowel_drop
    rcases t2 with _ | ⟨c, cs⟩
    · simp
    · rw [if_neg (by simp), if_neg (by norm_num), hl]
      exact vowelDropPass_keep_all vs _ _ g2 h2
  · unfold vowel_drop
    rcases t3 with _ | ⟨c, cs⟩
    · simp
    · by_cases hp : p ≤ 0
      · rw [if_neg (by simp), if_pos hp]
      · rw [if_neg (by simp), if_neg hp, h3]

/-- C9 witness: the claim instantiated at English (all of `"aeiou"` is
in the resolved set, none of `"xyz"` is) and at the unrecognised
language tag `"xx"`, with the all-zero valid stream. -/
theorem c9_vowel_drop_witness :
    validStream zRng.stream ∧
    resolveVowelLang "en" = some enVowels ∧
    (∀ c ∈ (['a', 'e', 'i', 'o', 'u'] : List Char), c ∈ enVowels) ∧
    (∀ c ∈ (['x', 'y', 'z'] : List Char), c ∉ enVowels) ∧
    resolveVowelLang "xx" = none ∧
    (vowel_drop ['a', 'e', 'i', 'o', 'u'] 1 "en" zRng).1 = [] ∧
    (vowel_drop ['x', 'y', 'z'] 1 "en" zRng).1 = ['x', 'y', 'z'] ∧
    (vowel_drop ['x', 'y', 'z'] (1 / 2) "xx" zRng).1 = ['x', 'y', 'z'] := by
  have hv : validStream zRng.stream := zStream_valid
  have hl : resolveVowelLang "en" = some enVowels := by decide
  have h1 : ∀ c ∈ (['a', 'e', 'i', 'o', 'u'] : List Char), c ∈ enVowels := by decide
  have h2 : ∀ c ∈ (['x', 'y', 'z'] : List Char), c ∉ enVowels := by decide
  have h3 : resolveVowelLang "xx" = none := by decide
  have h := c9_vowel_drop "en" "xx" enVowels ['a', 'e', 'i', 'o', 'u']
    ['x', 'y', 'z'] ['x', 'y', 'z'] (1 / 2) zRng zRng zRng hv hl h1 h2 h3
  exact ⟨hv, hl, h1, h2, h3, h.1, h.2.1, h.2.2⟩

/-- C10: the orchestrator's normalisation of raw model outputs assigns
confidence 1.0 to a bare (non-dict) prediction but confidence 0.0 to a
structured dict prediction lacking a `score` key — the asymmetric
defaults at the model boundary. -/
theorem c10_confidence_defaults (s rep : String) (l : Option String) :
    (normalizeRawPred (.bare s)).2 = 1 ∧
    (normalizeRawPred (.struct rep l none)).2 = 0 :=
  ⟨rfl, rfl⟩
